import Mathlib

/-!
Shallow embedding of OpenRCT2's wall placement action
(`src/openrct2/actions/WallPlaceAction.cpp`) and proofs about it.

Heights come in two units: "big" z coordinates (multiples of 8 per level)
used by placement requests and surface `GetBaseZ`, and "small" level units
(z / 8) stored in tile elements' `base_height` / `clearance_height` fields,
exactly as the obstruction scan compares them.  `uint8_t` arithmetic from the
source is modelled with an explicit `% 256` (`Int.emod`), and C++ `int`
division by 8 with `Int.tdiv` (truncation toward zero).
-/

namespace WallPlace

/-- Game action status codes (`GameActions::Status`), restricted to the values
this action produces. -/
inductive Status where
  | Ok
  | NotOwned
  | InvalidParameters
  | Disallowed
  | NoClearance
  | NoFreeElements
deriving DecidableEq, Repr

/-- Modelled from the spec: edge-slope flag for a wall standing on a raised
half-tile (`EDGE_SLOPE_ELEVATED`, a distinct bit of the `uint8_t` flag set). -/
def EDGE_SLOPE_ELEVATED : Nat := 1

/-- Modelled from the spec: edge-slope flag for an upward slope along the
edge (`EDGE_SLOPE_UPWARDS`). -/
def EDGE_SLOPE_UPWARDS : Nat := 64

/-- Modelled from the spec: edge-slope flag for a downward slope along the
edge (`EDGE_SLOPE_DOWNWARDS`). -/
def EDGE_SLOPE_DOWNWARDS : Nat := 128

/-- Surface slope bit marking a double-height (steep) slope encoding
(`TILE_ELEMENT_SLOPE_DOUBLE_HEIGHT = 0x10`). -/
def TILE_ELEMENT_SLOPE_DOUBLE_HEIGHT : Nat := 16

/-- `SCROLLING_MODE_NONE` (0xFF): the wall carries no scrolling sign text. -/
def SCROLLING_MODE_NONE : Nat := 255

/-- Modelled from the spec: wall catalog flag "cannot build on slope"
(`WALL_SCENERY_CANT_BUILD_ON_SLOPE`, a distinct bit). -/
def WALL_SCENERY_CANT_BUILD_ON_SLOPE : Nat := 4

/-- Modelled from the spec: wall catalog flag "is a door"
(`WALL_SCENERY_IS_DOOR`, a distinct bit). -/
def WALL_SCENERY_IS_DOOR : Nat := 32

/-- Modelled from the spec: wall catalog flag "has tertiary colour"
(`WALL_SCENERY_HAS_TERNARY_COLOUR`, a distinct bit). -/
def WALL_SCENERY_HAS_TERNARY_COLOUR : Nat := 128

/-- Modelled from the spec: per-sequence track flag forbidding doors
(`TRACK_SEQUENCE_FLAG_DISALLOW_DOORS`, a distinct bit). -/
def TRACK_SEQUENCE_FLAG_DISALLOW_DOORS : Nat := 16384

/-- Modelled from the spec: banner flag "is wall mounted"
(`BANNER_FLAG_IS_WALL`). -/
def BANNER_FLAG_IS_WALL : Nat := 8

/-- Modelled from the spec: banner flag "linked to a ride"
(`BANNER_FLAG_LINKED_TO_RIDE`). -/
def BANNER_FLAG_LINKED_TO_RIDE : Nat := 4

/-- `COLOUR_WHITE`, the default banner colour. -/
def COLOUR_WHITE : Nat := 2

/-- One vertical level step in big z coordinates (`COORDS_Z_STEP`). -/
def COORDS_Z_STEP : Int := 8

/-- Wall catalog entry (`WallSceneryEntry`): height in small units, price,
bit flags and scrolling-text mode. -/
structure WallSceneryEntry where
  height : Int
  price : Int
  flags : Nat
  scrolling_mode : Nat

/-- Small scenery catalog entry; only the `SMALL_SCENERY_FLAG_NO_WALLS` flag
matters to the obstruction scan. -/
structure SmallSceneryEntry where
  noWalls : Bool

/-- Per-sequence-tile footprint of a large scenery object; `flags` is the
bitmask tested against the rotated edge. -/
structure LargeSceneryTile where
  flags : Nat

/-- Large scenery catalog entry: footprint tiles indexed by sequence. -/
structure LargeSceneryEntry where
  tiles : Nat → LargeSceneryTile

/-- One entry of a track piece's block list (`rct_preview_track`): its index
byte (0xFF terminates the list) and its z offset. -/
structure PreviewTrack where
  index : Nat
  z : Int

/-- Begin/end coordinates of a track piece (`ted.Coordinates`). -/
structure TrackCoordinates where
  rotation_begin : Nat
  rotation_end : Nat
  z_begin : Int
  z_end : Int

/-- Bank information of a track piece (`ted.Definition`). -/
structure TrackDefinition where
  bank_start : Int
  bank_end : Int

/-- Track element descriptor (`GetTrackElementDescriptor`): static per-track
metadata consumed by the wall checks. -/
structure TrackElementDescriptor where
  SequenceProperties : Nat → Nat
  Definition : TrackDefinition
  Coordinates : TrackCoordinates
  Block : Nat → PreviewTrack
  SequenceElementAllowedWallEdges : Nat → Nat

/-- The two ride-type flags the wall checks consult
(`RIDE_TYPE_FLAG_TRACK_NO_WALLS`, `RIDE_TYPE_FLAG_ALLOW_DOORS_ON_TRACK`). -/
structure RideTypeDescriptor where
  trackNoWalls : Bool
  allowDoorsOnTrack : Bool

/-- A ride; only its type matters here. -/
structure Ride where
  rideType : Nat

/-- Payload of an installed wall element, as set by `Execute`. -/
structure WallData where
  direction : Nat
  slope : Nat
  primaryColour : Int
  secondaryColour : Int
  tertiaryColour : Option Int
  acrossTrack : Bool
  entryIndex : Nat
  bannerIndex : Option Nat

/-- Type-specific payload of a tile element (the closed variant set the
obstruction scan distinguishes). -/
inductive ElementData where
  | surface (slope : Nat) (waterHeight : Int)
  | wall (wd : WallData)
  | path (edges : Nat)
  | track (trackType : Nat) (sequenceIndex : Nat) (direction : Nat) (rideIndex : Nat)
  | entrance
  | largeScenery (direction : Nat) (sequenceIndex : Nat) (entry : Option LargeSceneryEntry)
  | smallScenery (entry : Option SmallSceneryEntry)

/-- A stacked tile element: heights in small (level) units, ghost flag,
occupied-quadrant mask and the variant payload. -/
structure TileElement where
  base_height : Int
  clearance_height : Int
  isGhost : Bool
  occupiedQuadrants : Nat
  data : ElementData

/-- Whether the element is the surface element of its tile. -/
def TileElement.isSurface (e : TileElement) : Bool :=
  match e.data with
  | .surface _ _ => true
  | _ => false

/-- `GetBaseZ`: base height converted to big z coordinates. -/
def TileElement.GetBaseZ (e : TileElement) : Int :=
  e.base_height * 8

/-- `SurfaceElement::GetSlope` (0 when not a surface element). -/
def TileElement.GetSlope (e : TileElement) : Nat :=
  match e.data with
  | .surface s _ => s
  | _ => 0

/-- `SurfaceElement::GetWaterHeight` in big z coordinates (0 = no water). -/
def TileElement.GetWaterHeight (e : TileElement) : Int :=
  match e.data with
  | .surface _ wh => wh
  | _ => 0

/-- `TileElementBase::GetDirection`: the stored direction masked to 2 bits. -/
def TileElement.GetDirection (e : TileElement) : Nat :=
  match e.data with
  | .wall wd => wd.direction % 4
  | .track _ _ d _ => d % 4
  | .largeScenery d _ _ => d % 4
  | _ => 0

/-- A banner registered in the global banner registry. -/
structure Banner where
  id : Nat
  colour : Nat
  text_colour : Nat
  flags : Nat
  position : Int × Int
  ride_index : Option Nat

/-- The shared world state the action reads and (in `Execute`) mutates:
tile storage, spare tile-element slots, the banner registry, rides and the
ownership data. -/
structure World where
  tiles : Int × Int → List TileElement
  freeElements : Nat
  freeBannerSlots : Nat
  nextBannerId : Nat
  banners : List Banner
  rides : Nat → Option Ride
  ownedLand : Int × Int → Bool
  parkLand : Int × Int → Bool

/-- Read-only validation context: global mode flags, the game-command flags
of this action, map geometry oracles and the static catalogs. -/
structure Ctx where
  screenFlagsScenarioEditor : Bool
  flagPathScenery : Bool
  flagGhost : Bool
  cheatsSandboxMode : Bool
  cheatsDisableClearanceChecks : Bool
  trackDesignDrawingPreview : Bool
  mapSizeMaxXY : Int
  locationValid : Int × Int → Bool
  atMapEdge : Int × Int → Bool
  landSlopeToWallSlope : Nat → Nat → Nat
  wallEntries : Nat → Option WallSceneryEntry
  rideTypeDescriptor : Nat → RideTypeDescriptor
  trackElementDescriptor : Nat → TrackElementDescriptor
  bannerClosestRide : Int × Int × Int → Option Nat

/-- The immutable placement request (`WallPlaceAction` members). -/
structure PlacementRequest where
  wallType : Nat
  x : Int
  y : Int
  z : Int
  edge : Nat
  primaryColour : Int
  secondaryColour : Int
  tertiaryColour : Int

/-- Outcome of Query/Execute: status, cost and the placement payload
(`WallPlaceActionResult`: resulting base z and banner id). -/
structure ActionResult where
  status : Status
  cost : Int
  resHeight : Option Int
  bannerId : Option Nat

/-- An error result carrying only a status. -/
def mkRes (s : Status) : ActionResult :=
  { status := s, cost := 0, resHeight := none, bannerId := none }

/-- Modelled from the spec: tile storage lookup `element_at` restricted to the
surface element (`map_get_surface_element_at`), the first surface element
stacked on the tile. -/
def mapGetSurfaceElementAt (w : World) (p : Int × Int) : Option TileElement :=
  (w.tiles p).find? (fun e => e.isSurface)

/-- Modelled from the spec: `ensure_capacity` / `MapCheckCapacityAndReorganise`:
verifies the tile storage has a free element slot, reorganising (compacting)
the storage if needed.  Compaction does not change the observable tile
contents at this model's granularity, so the world comes back unchanged. -/
def MapCheckCapacityAndReorganise (w : World) : Bool × World :=
  (decide (0 < w.freeElements), w)

/-- Modelled from the spec: banner registry `HasReachedBannerLimit` — the
registry is exhausted when no free slot remains. -/
def HasReachedBannerLimit (w : World) : Bool :=
  w.freeBannerSlots = 0

/-- Modelled from the spec: banner registry `allocate() -> Banner | exhausted`
(`CreateBanner`).  On success returns the fresh banner id together with the
registry holding a blank banner in the new slot. -/
def CreateBanner (w : World) : Option (Nat × World) :=
  if w.freeBannerSlots = 0 then none
  else
    some (w.nextBannerId,
      { w with
        freeBannerSlots := w.freeBannerSlots - 1
        nextBannerId := w.nextBannerId + 1
        banners := w.banners ++
          [{ id := w.nextBannerId, colour := 0, text_colour := 0, flags := 0,
             position := (0, 0), ride_index := none }] })

/-- Rewrites the fields of the registered banner with the given id, modelling
the field assignments `Execute` performs on the freshly created banner. -/
def World.updateBanner (w : World) (bid : Nat) (f : Banner → Banner) : World :=
  { w with banners := w.banners.map (fun b => if b.id = bid then f b else b) }

/-- Modelled from the spec: tile storage
`insert(coord, height, variant) -> element-handle or failure`
(`TileElementInsert`).  The storage keeps heights in small (level) units — the
obstruction scan compares them against `targetHeight / 8` — so the inserted
element's base height is the big z divided by 8.  The field initialisation the
source performs on the returned handle (clearance height, ghost flag, payload)
is folded into the construction.  Fails when no free element slot remains. -/
def TileElementInsert (w : World) (p : Int × Int) (z : Int) (quadrants : Nat)
    (clearance : Int) (ghost : Bool) (d : ElementData) : Option (TileElement × World) :=
  if w.freeElements = 0 then none
  else
    let e : TileElement :=
      { base_height := Int.tdiv z 8, clearance_height := clearance,
        isGhost := ghost, occupiedQuadrants := quadrants, data := d }
    some (e,
      { w with
        freeElements := w.freeElements - 1
        tiles := fun q => if q = p then w.tiles p ++ [e] else w.tiles q })

/-- `direction_reverse`: rotate a 2-bit direction by two (the source XORs
with 2, which agrees on 0..3). -/
def direction_reverse (d : Nat) : Nat := (d + 2) % 4

/-- Source lines 578-590 (`WallPlaceAction::TrackIsAllowedWallEdges`): unless
the ride type forbids all walls on track, walls are allowed on the edges whose
bit is set in the per-sequence allowed-wall-edges mask. -/
def TrackIsAllowedWallEdges (ctx : Ctx) (rideType trackType trackSequence direction : Nat) :
    Bool :=
  if ¬ (ctx.rideTypeDescriptor rideType).trackNoWalls then
    Nat.testBit ((ctx.trackElementDescriptor trackType).SequenceElementAllowedWallEdges
      trackSequence) direction
  else false

/-- Source lines 391-481 (`WallPlaceAction::WallCheckObstructionWithTrack`).
Returns the pair (allowed, across-flag-was-set): the boolean result of the
source function together with whether it executed `*wallAcrossTrack = true`.
`teBaseHeight`, `trackType`, `sequence`, `teDirection` and `rideIndex` are the
fields of the track element under inspection; `z0` is the candidate wall's
base height in small units. -/
def WallCheckObstructionWithTrack (ctx : Ctx) (rides : Nat → Option Ride)
    (req : PlacementRequest)
    (wall : WallSceneryEntry) (z0 : Int) (teBaseHeight : Int)
    (trackType sequence teDirection rideIndex : Nat) : Bool × Bool :=
  match rides rideIndex with
  | none => (false, false)
  | some ride =>
    if TrackIsAllowedWallEdges ctx ride.rideType trackType sequence
        (((req.edge : Int) - (teDirection % 4 : Nat)) % 4).toNat then
      (true, false)
    else if wall.flags &&& WALL_SCENERY_IS_DOOR = 0 then (false, false)
    else if ¬ (ctx.rideTypeDescriptor ride.rideType).allowDoorsOnTrack then (false, false)
    else
      -- from here on the source has executed `*wallAcrossTrack = true`
      if z0 % 2 = 1 then (false, true)
      else if sequence = 0 ∧
          (ctx.trackElementDescriptor trackType).SequenceProperties 0 &&&
            TRACK_SEQUENCE_FLAG_DISALLOW_DOORS ≠ 0 then
        (false, true)
      else if sequence = 0 ∧
          (ctx.trackElementDescriptor trackType).Definition.bank_start = 0 ∧
          ¬ Nat.testBit (ctx.trackElementDescriptor trackType).Coordinates.rotation_begin 2 ∧
          direction_reverse (teDirection % 4) = req.edge ∧
          teBaseHeight + ((ctx.trackElementDescriptor trackType).Coordinates.z_begin -
            ((ctx.trackElementDescriptor trackType).Block sequence).z) * 8 = z0 then
        (true, true)
      else if ((ctx.trackElementDescriptor trackType).Block (sequence + 1)).index ≠ 255 then
        (false, true)
      else if (ctx.trackElementDescriptor trackType).Definition.bank_end ≠ 0 then
        (false, true)
      else if Nat.testBit (ctx.trackElementDescriptor trackType).Coordinates.rotation_end 2 then
        (false, true)
      else if ((teDirection % 4) +
          (ctx.trackElementDescriptor trackType).Coordinates.rotation_end) % 4 ≠ req.edge then
        (false, true)
      else
        (decide (teBaseHeight + ((ctx.trackElementDescriptor trackType).Coordinates.z_end -
            ((ctx.trackElementDescriptor trackType).Block sequence).z) * 8 = z0),
          true)

/-- Source lines 497-573: the element loop of
`WallPlaceAction::WallCheckObstruction`, walking the elements stacked on the
target tile and threading the `wallAcrossTrack` flag.  Returns the resulting
status together with the final flag. -/
def scanLoop (ctx : Ctx) (rides : Nat → Option Ride) (req : PlacementRequest)
    (wall : WallSceneryEntry)
    (z0 z1 : Int) : List TileElement → Bool → Status × Bool
  | [], across => (Status.Ok, across)
  | e :: rest, across =>
    if e.isSurface then scanLoop ctx rides req wall z0 z1 rest across
    else if e.isGhost then scanLoop ctx rides req wall z0 z1 rest across
    else if z0 ≥ e.clearance_height then scanLoop ctx rides req wall z0 z1 rest across
    else if z1 ≤ e.base_height then scanLoop ctx rides req wall z0 z1 rest across
    else
      match e.data with
      | .wall wd =>
        if req.edge = wd.direction % 4 then (Status.NoClearance, across)
        else scanLoop ctx rides req wall z0 z1 rest across
      | d =>
        if e.occupiedQuadrants = 0 then scanLoop ctx rides req wall z0 z1 rest across
        else
          match d with
          | .entrance => (Status.NoClearance, across)
          | .path edges =>
            if Nat.testBit edges req.edge then (Status.NoClearance, across)
            else scanLoop ctx rides req wall z0 z1 rest across
          | .largeScenery dir seq entryOpt =>
            match entryOpt with
            | none => scanLoop ctx rides req wall z0 z1 rest across
            | some entry =>
              if ¬ Nat.testBit (entry.tiles seq).flags
                  ((((req.edge : Int) - (dir % 4 : Nat)) % 4).toNat + 8) then
                (Status.NoClearance, across)
              else scanLoop ctx rides req wall z0 z1 rest across
          | .smallScenery entryOpt =>
            match entryOpt with
            | some entry =>
              if entry.noWalls then (Status.NoClearance, across)
              else scanLoop ctx rides req wall z0 z1 rest across
            | none => scanLoop ctx rides req wall z0 z1 rest across
          | .track tt seq dir ri =>
            match WallCheckObstructionWithTrack ctx rides req wall z0 e.base_height tt seq dir ri with
            | (true, aset) => scanLoop ctx rides req wall z0 z1 rest (across || aset)
            | (false, _) => (Status.NoClearance, across)
          -- unreachable: surface and wall variants were handled above
          | .surface _ _ => scanLoop ctx rides req wall z0 z1 rest across
          | .wall _ => scanLoop ctx rides req wall z0 z1 rest across

/-- Source lines 487-576 (`WallPlaceAction::WallCheckObstruction`): reject on
the map edge, otherwise scan the elements stacked on the tile.  Returns the
status and the `wallAcrossTrack` flag. -/
def WallCheckObstruction (ctx : Ctx) (w : World) (req : PlacementRequest)
    (wall : WallSceneryEntry) (z0 z1 : Int) : Status × Bool :=
  if ctx.atMapEdge (req.x, req.y) then (Status.InvalidParameters, false)
  else scanLoop ctx w.rides req wall z0 z1 (w.tiles (req.x, req.y)) false

/-- Source lines 106-125 (in `Query`) and 280-299 (textually identical in
`Execute`): resolve the target height (big z units) and the edge-slope flags.
With an explicit nonzero request height no slope adjustment occurs; with
height 0 the surface's base z and the `LandSlopeToWallSlope` table are used,
the elevated flag adding 16 z units and being cleared before use.  `none` when
height is 0 and the tile has no surface element. -/
def resolveHeightSlope (ctx : Ctx) (w : World) (req : PlacementRequest) :
    Option (Int × Nat) :=
  if req.z = 0 then
    match mapGetSurfaceElementAt w (req.x, req.y) with
    | none => none
    | some s =>
      let slope := s.GetSlope
      let edgeSlope := ctx.landSlopeToWallSlope slope (req.edge % 4) % 256
      if edgeSlope &&& EDGE_SLOPE_ELEVATED ≠ 0 then
        some (s.GetBaseZ + 16, edgeSlope &&& (255 ^^^ EDGE_SLOPE_ELEVATED))
      else some (s.GetBaseZ, edgeSlope)
  else some (req.z, 0)

/-- Source lines 149-213 (the body of the `if (!(edgeSlope & (UPWARDS |
DOWNWARDS)))` block in `Query`): the flat-wall-against-raised-neighbor ground
check.  `slope` and `surfaceBaseHeight` are the surface element's slope mask
and raw `base_height`; returns `true` when the placement must be rejected
with the build-above-ground error.  `newBaseHeight` is a `uint8_t` in the
source, hence the `% 256` wraps. -/
def flatWallGroundReject (slope : Nat) (surfaceBaseHeight : Int) (edge : Nat)
    (targetHeight : Int) : Bool :=
  let th8 : Int := Int.tdiv targetHeight 8
  let newEdge1 : Nat := (edge + 2) % 4
  let nbh0 : Int := (surfaceBaseHeight + 2) % 256
  -- first adjacent corner (lines 154-182); the pair carries the possibly
  -- updated `newBaseHeight` the second block continues with
  let firstBlock : Bool × Int :=
    if Nat.testBit slope newEdge1 then
      if th8 < nbh0 then (true, nbh0)
      else if slope &&& TILE_ELEMENT_SLOPE_DOUBLE_HEIGHT ≠ 0 then
        let e1 := (newEdge1 + 4 - 1) % 4
        if Nat.testBit slope e1 then
          let e2 := (e1 + 2) % 4
          if Nat.testBit slope e2 then
            let nbh1 := (nbh0 + 2) % 256
            if th8 < nbh1 then (true, nbh1)
            else (false, (nbh1 - 2) % 256)
          else (false, nbh0)
        else (false, nbh0)
      else (false, nbh0)
    else (false, nbh0)
  if firstBlock.1 then true
  else
    -- second adjacent corner (lines 184-212)
    let nbh := firstBlock.2
    let newEdge2 : Nat := (edge + 3) % 4
    if Nat.testBit slope newEdge2 then
      if th8 < nbh then true
      else if slope &&& TILE_ELEMENT_SLOPE_DOUBLE_HEIGHT ≠ 0 then
        let e1 := (newEdge2 + 4 - 1) % 4
        if Nat.testBit slope e1 then
          let e2 := (e1 + 2) % 4
          if Nat.testBit slope e2 then
            let nbh2 := (nbh + 2) % 256
            decide (th8 < nbh2)
          else false
        else false
      else false
    else false

/-- Source lines 81-99: the ownership / permission block of `Query`.
Returns the failure status it early-returns with, or `none` to continue. -/
def ownershipFail (ctx : Ctx) (w : World) (req : PlacementRequest) : Option Status :=
  if ¬ ctx.screenFlagsScenarioEditor ∧ ¬ ctx.flagPathScenery ∧
      ¬ ctx.cheatsSandboxMode then
    if req.z = 0 then
      if ¬ w.parkLand (req.x, req.y) then some .NotOwned else none
    else
      if ¬ w.ownedLand (req.x, req.y) then some .NotOwned else none
  else if ¬ ctx.trackDesignDrawingPreview ∧
      (req.x > ctx.mapSizeMaxXY ∨ req.y > ctx.mapSizeMaxXY) then
    some .InvalidParameters
  else none

/-- Source lines 232-241 (`Query`) and 310-315 (`Execute`): the `uint8_t`
clearance height: `targetHeight / 8`, plus 2 levels when the edge slope is
upward or downward, plus the wall entry's own height. -/
def clearanceCalc (targetHeight : Int) (edgeSlope : Nat) (we : WallSceneryEntry) : Int :=
  ((if edgeSlope &&& (EDGE_SLOPE_UPWARDS ||| EDGE_SLOPE_DOWNWARDS) ≠ 0
    then (Int.tdiv targetHeight 8 % 256 + 2) % 256
    else Int.tdiv targetHeight 8 % 256) + we.height) % 256

/-- Source lines 243-251 (`Query`) and 317-325 (`Execute`): run the
obstruction check unless the action is an automatic path accessory or
clearance checks are disabled. -/
def obstructionStep (ctx : Ctx) (w : World) (req : PlacementRequest)
    (we : WallSceneryEntry) (targetHeight : Int) (edgeSlope : Nat) : Status × Bool :=
  if ¬ ctx.flagPathScenery ∧ ¬ ctx.cheatsDisableClearanceChecks then
    WallCheckObstruction ctx w req we (Int.tdiv targetHeight 8)
      (clearanceCalc targetHeight edgeSlope we)
  else (Status.Ok, false)

/-- Source lines 327-350: when the wall carries a sign, allocate a banner
(`none` when the registry is exhausted) and initialise its fields, linking it
to the closest ride if one is in range.  Otherwise pass the world through
with no banner. -/
def bannerStep (ctx : Ctx) (w : World) (req : PlacementRequest)
    (we : WallSceneryEntry) (targetHeight : Int) : Option (Option Nat × World) :=
  if we.scrolling_mode ≠ SCROLLING_MODE_NONE then
    match CreateBanner w with
    | none => none
    | some (bid, w1) =>
      some (some bid,
        w1.updateBanner bid (fun b =>
          { b with
            colour := COLOUR_WHITE
            text_colour := COLOUR_WHITE
            flags := BANNER_FLAG_IS_WALL |||
              (if (ctx.bannerClosestRide (req.x, req.y, targetHeight)).isSome
               then BANNER_FLAG_LINKED_TO_RIDE else 0)
            position := (req.x, req.y)
            ride_index := ctx.bannerClosestRide (req.x, req.y, targetHeight) }))
  else some (none, w)

/-- The payload of the wall element `Execute` installs (lines 352-374). -/
def installedWallData (req : PlacementRequest) (edgeSlope : Nat)
    (we : WallSceneryEntry) (acrossTrack : Bool) (bannerId : Option Nat) : WallData :=
  { direction := req.edge % 4, slope := edgeSlope,
    primaryColour := req.primaryColour,
    secondaryColour := req.secondaryColour,
    tertiaryColour :=
      if we.flags &&& WALL_SCENERY_HAS_TERNARY_COLOUR ≠ 0
      then some req.tertiaryColour else none,
    acrossTrack := acrossTrack, entryIndex := req.wallType,
    bannerIndex := bannerId }

/-- Source lines 61-263 (`WallPlaceAction::Query`): validate the placement
without mutating the world.  Returns the result and the (unchanged) world. -/
def Query (ctx : Ctx) (w : World) (req : PlacementRequest) : ActionResult × World :=
  if ¬ ctx.locationValid (req.x, req.y) then (mkRes .NotOwned, w)
  else
    match ownershipFail ctx w req with
    | some s => (mkRes s, w)
    | none =>
      if req.edge > 3 then (mkRes .InvalidParameters, w)
      else
        match resolveHeightSlope ctx w req with
        | none => (mkRes .InvalidParameters, w)
        | some (targetHeight, edgeSlope) =>
          match mapGetSurfaceElementAt w (req.x, req.y) with
          | none => (mkRes .InvalidParameters, w)
          | some surfaceElement =>
            if surfaceElement.GetWaterHeight > 0 ∧
                targetHeight < surfaceElement.GetWaterHeight ∧
                ¬ ctx.cheatsDisableClearanceChecks then
              (mkRes .Disallowed, w)
            else if targetHeight < surfaceElement.GetBaseZ ∧
                ¬ ctx.cheatsDisableClearanceChecks then
              (mkRes .Disallowed, w)
            else if edgeSlope &&& (EDGE_SLOPE_UPWARDS ||| EDGE_SLOPE_DOWNWARDS) = 0 ∧
                flatWallGroundReject surfaceElement.GetSlope surfaceElement.base_height
                  req.edge targetHeight then
              (mkRes .Disallowed, w)
            else
              match ctx.wallEntries req.wallType with
              | none => (mkRes .InvalidParameters, w)
              | some wallEntry =>
                if wallEntry.scrolling_mode ≠ SCROLLING_MODE_NONE ∧
                    HasReachedBannerLimit w then
                  (mkRes .InvalidParameters, w)
                else if edgeSlope &&& (EDGE_SLOPE_UPWARDS ||| EDGE_SLOPE_DOWNWARDS) ≠ 0 ∧
                    wallEntry.flags &&& WALL_SCENERY_CANT_BUILD_ON_SLOPE ≠ 0 then
                  (mkRes .Disallowed, w)
                else if (obstructionStep ctx w req wallEntry targetHeight edgeSlope).1 ≠
                    Status.Ok then
                  (mkRes (obstructionStep ctx w req wallEntry targetHeight edgeSlope).1, w)
                else if ¬ (MapCheckCapacityAndReorganise w).1 then
                  (mkRes .NoFreeElements, (MapCheckCapacityAndReorganise w).2)
                else
                  ({ status := .Ok, cost := wallEntry.price,
                     resHeight := none, bannerId := none },
                    (MapCheckCapacityAndReorganise w).2)

/-- Source lines 265-385 (`WallPlaceAction::Execute`): re-derive height,
catalog entry, clearance and obstruction, then allocate the banner if the
wall carries a sign and insert the wall element.  Note lines 310-315 do NOT
repeat the `WALL_SCENERY_CANT_BUILD_ON_SLOPE` rejection of `Query`, and on an
insertion failure the source returns without releasing the freshly allocated
banner (the comment on line 341 notwithstanding); the model reproduces
both. -/
def Execute (ctx : Ctx) (w : World) (req : PlacementRequest) : ActionResult × World :=
  match resolveHeightSlope ctx w req with
  | none => (mkRes .InvalidParameters, w)
  | some (targetHeight, edgeSlope) =>
    match ctx.wallEntries req.wallType with
    | none => (mkRes .InvalidParameters, w)
    | some wallEntry =>
      if (obstructionStep ctx w req wallEntry targetHeight edgeSlope).1 ≠
          Status.Ok then
        (mkRes (obstructionStep ctx w req wallEntry targetHeight edgeSlope).1, w)
      else
        match bannerStep ctx w req wallEntry targetHeight with
        | none => (mkRes .InvalidParameters, w)
        | some (bannerId, w2) =>
          match TileElementInsert w2 (req.x, req.y) targetHeight 0
              (clearanceCalc targetHeight edgeSlope wallEntry) ctx.flagGhost
              (.wall (installedWallData req edgeSlope wallEntry
                (obstructionStep ctx w req wallEntry targetHeight edgeSlope).2
                bannerId)) with
          | none =>
            -- source bug: the allocated banner is NOT released here
            (mkRes .NoFreeElements, w2)
          | some (wallElement, w3) =>
            ({ status := .Ok, cost := wallEntry.price,
               resHeight := some wallElement.GetBaseZ,
               bannerId := bannerId }, w3)

/-! Concrete sample instances used to evaluate the action at specific
inputs. -/

/-- A plain fence: height 2 levels, no flags, no sign. -/
def plainEntry : WallSceneryEntry :=
  { height := 2, price := 10, flags := 0, scrolling_mode := SCROLLING_MODE_NONE }

/-- A wall carrying a scrolling sign (scrolling mode 0 ≠ none). -/
def signEntry : WallSceneryEntry :=
  { height := 2, price := 10, flags := 0, scrolling_mode := 0 }

/-- A wall that may not be built on a slope. -/
def slopedForbidEntry : WallSceneryEntry :=
  { height := 2, price := 10, flags := WALL_SCENERY_CANT_BUILD_ON_SLOPE,
    scrolling_mode := SCROLLING_MODE_NONE }

/-- A door wall. -/
def doorEntry : WallSceneryEntry :=
  { height := 2, price := 10, flags := WALL_SCENERY_IS_DOOR,
    scrolling_mode := SCROLLING_MODE_NONE }

/-- A flat, dry surface element at level 1 (base z 8). -/
def flatSurface : TileElement :=
  { base_height := 1, clearance_height := 1, isGhost := false,
    occupiedQuadrants := 15, data := .surface 0 0 }

/-- A track element descriptor with every field inert. -/
def trivialTed : TrackElementDescriptor :=
  { SequenceProperties := fun _ => 0
    Definition := { bank_start := 0, bank_end := 0 }
    Coordinates := { rotation_begin := 0, rotation_end := 0, z_begin := 0, z_end := 0 }
    Block := fun _ => { index := 255, z := 0 }
    SequenceElementAllowedWallEdges := fun _ => 0 }

/-- A baseline validation context: normal play mode, no cheats, wall catalog
id 5 mapped to the plain fence, flat slope table. -/
def baseCtx : Ctx :=
  { screenFlagsScenarioEditor := false
    flagPathScenery := false
    flagGhost := false
    cheatsSandboxMode := false
    cheatsDisableClearanceChecks := false
    trackDesignDrawingPreview := false
    mapSizeMaxXY := 1000
    locationValid := fun _ => true
    atMapEdge := fun _ => false
    landSlopeToWallSlope := fun _ _ => 0
    wallEntries := fun i => if i = 5 then some plainEntry else none
    rideTypeDescriptor := fun _ => { trackNoWalls := false, allowDoorsOnTrack := false }
    trackElementDescriptor := fun _ => trivialTed
    bannerClosestRide := fun _ => none }

/-- A baseline world: one flat surface tile at (32, 32), plenty of element
slots and banner slots, everything owned. -/
def baseWorld : World :=
  { tiles := fun p => if p = (32, 32) then [flatSurface] else []
    freeElements := 10
    freeBannerSlots := 5
    nextBannerId := 0
    banners := []
    rides := fun _ => none
    ownedLand := fun _ => true
    parkLand := fun _ => true }

/-- A baseline request: wall type 5 on edge 0 of tile (32, 32), automatic
height. -/
def baseReq : PlacementRequest :=
  { wallType := 5, x := 32, y := 32, z := 0, edge := 0,
    primaryColour := 0, secondaryColour := 0, tertiaryColour := 0 }

/-- The baseline request with the explicit, non-8-aligned height 12. -/
def reqZ12 : PlacementRequest := { baseReq with z := 12 }

/-- The baseline context with catalog id 5 mapped to the sign-carrying wall. -/
def ctxSign : Ctx :=
  { baseCtx with wallEntries := fun i => if i = 5 then some signEntry else none }

/-- The baseline world with no free tile-element slots and exactly one free
banner slot. -/
def wNoElems : World := { baseWorld with freeElements := 0, freeBannerSlots := 1 }

/-- A context whose slope table makes edge 0 of surface slope 1 an upward
edge, with catalog id 5 mapped to the slope-forbidding wall. -/
def ctxSlope : Ctx :=
  { baseCtx with
    landSlopeToWallSlope := fun s e => if s = 1 ∧ e = 0 then EDGE_SLOPE_UPWARDS else 0
    wallEntries := fun i => if i = 5 then some slopedForbidEntry else none }

/-- A world whose tile (32, 32) has a surface with slope mask 1. -/
def wSlope : World :=
  { baseWorld with
    tiles := fun p =>
      if p = (32, 32) then
        [{ base_height := 1, clearance_height := 1, isGhost := false,
           occupiedQuadrants := 15, data := .surface 1 0 }]
      else [] }

/-- A non-ghost entrance element with an empty occupancy mask, overlapping
levels 0-10. -/
def entrance0 : TileElement :=
  { base_height := 0, clearance_height := 10, isGhost := false,
    occupiedQuadrants := 0, data := .entrance }

/-- The baseline world with `entrance0` stacked on tile (32, 32). -/
def wEnt : World :=
  { baseWorld with
    tiles := fun p => if p = (32, 32) then [flatSurface, entrance0] else [] }

/-- A context whose ride-type descriptor forbids walls on track but allows
doors, with catalog id 5 mapped to the door wall. -/
def ctxDoor : Ctx :=
  { baseCtx with
    rideTypeDescriptor := fun _ => { trackNoWalls := true, allowDoorsOnTrack := true }
    wallEntries := fun i => if i = 5 then some doorEntry else none }

/-- A world whose ride registry answers every index with a type-0 ride. -/
def wRide : World := { baseWorld with rides := fun _ => some { rideType := 0 } }

/-! Helper lemmas. -/

set_option maxHeartbeats 2000000 in
/-- `Query` returns the world it was given, whatever branch it takes. -/
theorem Query_world_eq (ctx : Ctx) (w : World) (req : PlacementRequest) :
    (Query ctx w req).2 = w := by
  simp only [Query, MapCheckCapacityAndReorganise]
  repeat' split
  all_goals rfl

/-- The element loop only ever answers `Ok` or `NoClearance`. -/
theorem scanLoop_status (ctx : Ctx) (rides : Nat → Option Ride) (req : PlacementRequest)
    (wall : WallSceneryEntry) (z0 z1 : Int) (l : List TileElement) (across : Bool) :
    (scanLoop ctx rides req wall z0 z1 l across).1 = Status.Ok ∨
      (scanLoop ctx rides req wall z0 z1 l across).1 = Status.NoClearance := by
  induction l generalizing across with
  | nil => left; rfl
  | cons e rest ih =>
    simp only [scanLoop]
    repeat' split
    all_goals (first | exact ih _ | exact Or.inl rfl | exact Or.inr rfl)

/-- The obstruction check never answers `Disallowed`. -/
theorem WallCheckObstruction_ne_Disallowed (ctx : Ctx) (w : World)
    (req : PlacementRequest) (wall : WallSceneryEntry) (z0 z1 : Int) :
    (WallCheckObstruction ctx w req wall z0 z1).1 ≠ Status.Disallowed := by
  unfold WallCheckObstruction
  split
  · simp
  · rcases scanLoop_status ctx w.rides req wall z0 z1 (w.tiles (req.x, req.y)) false with
      h | h <;> simp [h]

/-! Claim theorems. -/

/-- C3: for every placement request and world state, `Query` leaves every
shared entity — tile storage, banner registry, rides, ownership data, all of
the world — unchanged, whatever status it returns. -/
theorem query_mutates_nothing (ctx : Ctx) (w : World) (req : PlacementRequest) :
    (Query ctx w req).2 = w :=
  Query_world_eq ctx w req

/-- C6: an element is skipped by the obstruction scan's vertical test exactly
when its half-open interval `[base, clearance)` is disjoint from the candidate
interval `[z0, z1)`: the source's comparisons `z0 >= clearance` / `z1 <= base`
are equivalent to non-overlap, and a non-overlapping element never affects
the scan. -/
theorem vertical_skip_iff_disjoint (ctx : Ctx) (rides : Nat → Option Ride)
    (req : PlacementRequest) (wall : WallSceneryEntry) (z0 z1 : Int)
    (e : TileElement) (rest : List TileElement) (across : Bool) :
    ((z0 ≥ e.clearance_height ∨ z1 ≤ e.base_height) ↔
      ¬ (z0 < e.clearance_height ∧ e.base_height < z1)) ∧
    (¬ (z0 < e.clearance_height ∧ e.base_height < z1) →
      scanLoop ctx rides req wall z0 z1 (e :: rest) across =
        scanLoop ctx rides req wall z0 z1 rest across) := by
  constructor
  · constructor
    · rintro h ⟨h1, h2⟩; omega
    · intro h
      by_contra hc
      push_neg at hc
      exact h ⟨hc.1, hc.2⟩
  · intro h
    simp only [scanLoop]
    split
    · rfl
    · split
      · rfl
      · split
        · rfl
        · split
          · rfl
          · exfalso
            exact h ⟨by omega, by omega⟩

/-- C5: a non-ghost wall element that vertically overlaps the candidate
interval makes the scan report `NoClearance` exactly when it occupies the
candidate's edge; on any other edge the scan passes over it unchanged, so
walls on different edges of the same tile coexist while a wall on the same
edge always conflicts. -/
theorem wall_conflict_iff_same_edge (ctx : Ctx) (rides : Nat → Option Ride)
    (req : PlacementRequest) (wall : WallSceneryEntry) (z0 z1 : Int)
    (e : TileElement) (wd : WallData) (rest : List TileElement) (across : Bool)
    (hdata : e.data = .wall wd) (hg : e.isGhost = false)
    (hov : z0 < e.clearance_height ∧ e.base_height < z1) :
    scanLoop ctx rides req wall z0 z1 (e :: rest) across =
      (if req.edge = wd.direction % 4 then (Status.NoClearance, across)
       else scanLoop ctx rides req wall z0 z1 rest across) := by
  have h1 : ¬ (z0 ≥ e.clearance_height) := by omega
  have h2 : ¬ (z1 ≤ e.base_height) := by omega
  have hs : e.isSurface = false := by
    unfold TileElement.isSurface; rw [hdata]
  simp only [scanLoop]
  rw [hs, hg, if_neg (by simp), if_neg (by simp), if_neg h1, if_neg h2, hdata]

/-- C8 (amended): a non-ghost entrance element with a nonempty occupancy mask
that vertically overlaps the candidate interval always produces a
`NoClearance` conflict, for every edge and whatever else is on the tile. -/
theorem entrance_conflict_with_occupancy (ctx : Ctx) (rides : Nat → Option Ride)
    (req : PlacementRequest) (wall : WallSceneryEntry) (z0 z1 : Int)
    (e : TileElement) (rest : List TileElement) (across : Bool)
    (hdata : e.data = .entrance) (hg : e.isGhost = false)
    (hov : z0 < e.clearance_height ∧ e.base_height < z1)
    (hq : e.occupiedQuadrants ≠ 0) :
    scanLoop ctx rides req wall z0 z1 (e :: rest) across =
      (Status.NoClearance, across) := by
  have h1 : ¬ (z0 ≥ e.clearance_height) := by omega
  have h2 : ¬ (z1 ≤ e.base_height) := by omega
  have hs : e.isSurface = false := by
    unfold TileElement.isSurface; rw [hdata]
  simp only [scanLoop]
  rw [hs, hg, if_neg (by simp), if_neg (by simp), if_neg h1, if_neg h2, hdata]
  simp [hq]

/-- C8 counterexample: a non-ghost entrance element that vertically overlaps
the candidate interval but has an empty occupancy mask is skipped, so the
scan returns `Ok` — refuting "every overlapping non-ghost entrance always
conflicts". -/
theorem entrance_empty_mask_skipped_cex :
    entrance0.data = ElementData.entrance ∧
    entrance0.isGhost = false ∧
    entrance0.occupiedQuadrants = 0 ∧
    (1 : Int) < entrance0.clearance_height ∧
    entrance0.base_height < (3 : Int) ∧
    (WallCheckObstruction baseCtx wEnt baseReq plainEntry 1 3).1 = Status.Ok := by
  refine ⟨rfl, rfl, rfl, by norm_num [entrance0], by norm_num [entrance0], ?_⟩
  rfl


/-- A wall element mounted on edge 0 of its tile, occupying levels 1-3. -/
def wallData0 : WallData :=
  { direction := 0, slope := 0, primaryColour := 0, secondaryColour := 0,
    tertiaryColour := none, acrossTrack := false, entryIndex := 5,
    bannerIndex := none }

/-- The tile element holding `wallData0`. -/
def wallEdge0 : TileElement :=
  { base_height := 1, clearance_height := 3, isGhost := false,
    occupiedQuadrants := 0, data := .wall wallData0 }

/-- A non-ghost entrance element with a full occupancy mask, levels 0-10. -/
def entranceFull : TileElement :=
  { base_height := 0, clearance_height := 10, isGhost := false,
    occupiedQuadrants := 15, data := .entrance }

set_option maxRecDepth 8192 in
/-- Masking the elevated bit away leaves a byte with a clear elevated bit. -/
theorem land_elevated_cleared : ∀ x < 256,
    (x &&& (255 ^^^ EDGE_SLOPE_ELEVATED)) &&& EDGE_SLOPE_ELEVATED = 0 := by decide

/-- C7: with automatic height (request z = 0), the resolved target height is
the surface's base z — raised by 16 z units exactly when the slope-table
lookup (indexed by the surface slope mask and the edge) carries the elevated
flag, which is cleared before use — and the resolved slope flags are that
table lookup; with an explicit nonzero height the resolution is the request
height with flat slope flags. -/
theorem height_resolution_spec (ctx : Ctx) (w : World) (req : PlacementRequest)
    (s : TileElement)
    (hs : mapGetSurfaceElementAt w (req.x, req.y) = some s) :
    (req.z = 0 →
      resolveHeightSlope ctx w req =
        (if (ctx.landSlopeToWallSlope s.GetSlope (req.edge % 4) % 256) &&&
            EDGE_SLOPE_ELEVATED ≠ 0 then
          some (s.GetBaseZ + 16,
            (ctx.landSlopeToWallSlope s.GetSlope (req.edge % 4) % 256) &&&
              (255 ^^^ EDGE_SLOPE_ELEVATED))
        else
          some (s.GetBaseZ,
            ctx.landSlopeToWallSlope s.GetSlope (req.edge % 4) % 256))) ∧
    (∀ th es, req.z = 0 → resolveHeightSlope ctx w req = some (th, es) →
      es &&& EDGE_SLOPE_ELEVATED = 0) ∧
    (req.z ≠ 0 → resolveHeightSlope ctx w req = some (req.z, 0)) := by
  have hmain : req.z = 0 →
      resolveHeightSlope ctx w req =
        (if (ctx.landSlopeToWallSlope s.GetSlope (req.edge % 4) % 256) &&&
            EDGE_SLOPE_ELEVATED ≠ 0 then
          some (s.GetBaseZ + 16,
            (ctx.landSlopeToWallSlope s.GetSlope (req.edge % 4) % 256) &&&
              (255 ^^^ EDGE_SLOPE_ELEVATED))
        else
          some (s.GetBaseZ,
            ctx.landSlopeToWallSlope s.GetSlope (req.edge % 4) % 256)) := by
    intro hz
    unfold resolveHeightSlope
    rw [if_pos hz, hs]
  refine ⟨hmain, ?_, ?_⟩
  · intro th es hz hr
    rw [hmain hz] at hr
    by_cases hel : (ctx.landSlopeToWallSlope s.GetSlope (req.edge % 4) % 256) &&&
        EDGE_SLOPE_ELEVATED ≠ 0
    · rw [if_pos hel] at hr
      simp only [Option.some.injEq, Prod.mk.injEq] at hr
      rw [← hr.2]
      exact land_elevated_cleared _ (Nat.mod_lt _ (by norm_num))
    · rw [if_neg hel] at hr
      push_neg at hel
      simp only [Option.some.injEq, Prod.mk.injEq] at hr
      rw [← hr.2]
      exact hel
  · intro hz
    unfold resolveHeightSlope
    rw [if_neg hz]

/-- C7 witness: at the baseline flat input the automatic height resolves to
the surface base z 8 with flat slope flags. -/
theorem height_resolution_spec_witness :
    resolveHeightSlope baseCtx baseWorld baseReq =
      (if (baseCtx.landSlopeToWallSlope flatSurface.GetSlope (baseReq.edge % 4) % 256) &&&
          EDGE_SLOPE_ELEVATED ≠ 0 then
        some (flatSurface.GetBaseZ + 16,
          (baseCtx.landSlopeToWallSlope flatSurface.GetSlope (baseReq.edge % 4) % 256) &&&
            (255 ^^^ EDGE_SLOPE_ELEVATED))
      else
        some (flatSurface.GetBaseZ,
          baseCtx.landSlopeToWallSlope flatSurface.GetSlope (baseReq.edge % 4) % 256)) :=
  (height_resolution_spec baseCtx baseWorld baseReq flatSurface rfl).1 rfl

/-- C5 witness: a wall on edge 0 of the tile conflicts with a second edge-0
placement and is passed over by an edge-2 placement. -/
theorem wall_conflict_iff_same_edge_witness :
    scanLoop baseCtx baseWorld.rides baseReq plainEntry 1 3 [wallEdge0] false =
      (if baseReq.edge = wallData0.direction % 4 then (Status.NoClearance, false)
       else scanLoop baseCtx baseWorld.rides baseReq plainEntry 1 3 [] false) :=
  wall_conflict_iff_same_edge baseCtx baseWorld.rides baseReq plainEntry 1 3
    wallEdge0 wallData0 [] false rfl rfl (by decide)

/-- C6 witness: an element occupying levels 1-3 is skipped by a candidate
occupying levels 5-9. -/
theorem vertical_skip_iff_disjoint_witness :
    scanLoop baseCtx baseWorld.rides baseReq plainEntry 5 9 [wallEdge0] false =
      scanLoop baseCtx baseWorld.rides baseReq plainEntry 5 9 [] false :=
  (vertical_skip_iff_disjoint baseCtx baseWorld.rides baseReq plainEntry 5 9
    wallEdge0 [] false).2 (by decide)

/-- C8 witness: a fully occupying, overlapping entrance element conflicts. -/
theorem entrance_conflict_with_occupancy_witness :
    scanLoop baseCtx baseWorld.rides baseReq plainEntry 1 3 [entranceFull] false =
      (Status.NoClearance, false) :=
  entrance_conflict_with_occupancy baseCtx baseWorld.rides baseReq plainEntry 1 3
    entranceFull [] false rfl rfl (by decide) (by decide)

/-- C10: when a door wall crosses a track element whose general wall-edge
permission fails but whose ride type permits doors, an odd candidate base
height z0 makes the compatibility check answer not-allowed (with the
across-track flag set), and the obstruction scan reports `NoClearance` for
such a track element, regardless of sequence, rotation and height
alignment. -/
theorem door_track_odd_base_rejected (ctx : Ctx) (rides : Nat → Option Ride)
    (req : PlacementRequest) (wall : WallSceneryEntry) (z0 z1 teBase : Int)
    (tt seq dir ri : Nat) (ride : Ride)
    (hr : rides ri = some ride)
    (hallow : TrackIsAllowedWallEdges ctx ride.rideType tt seq
        (((req.edge : Int) - (dir % 4 : Nat)) % 4).toNat = false)
    (hdoor : wall.flags &&& WALL_SCENERY_IS_DOOR ≠ 0)
    (hdoors : (ctx.rideTypeDescriptor ride.rideType).allowDoorsOnTrack = true)
    (hodd : z0 % 2 = 1) :
    WallCheckObstructionWithTrack ctx rides req wall z0 teBase tt seq dir ri =
      (false, true) ∧
    ∀ (e : TileElement) (rest : List TileElement) (across : Bool),
      e.data = .track tt seq dir ri → e.isGhost = false → e.base_height = teBase →
      z0 < e.clearance_height → e.base_height < z1 → e.occupiedQuadrants ≠ 0 →
      scanLoop ctx rides req wall z0 z1 (e :: rest) across =
        (Status.NoClearance, across) := by
  have h1 : WallCheckObstructionWithTrack ctx rides req wall z0 teBase tt seq dir ri =
      (false, true) := by
    unfold WallCheckObstructionWithTrack
    rw [hr]
    simp only [hallow, hdoors]
    rw [if_neg (by simp), if_neg hdoor, if_neg (by simp), if_pos hodd]
  refine ⟨h1, ?_⟩
  intro e rest across hdata hg hbase hov1 hov2 hq
  have hs : e.isSurface = false := by
    unfold TileElement.isSurface; rw [hdata]
  have hno1 : ¬ (z0 ≥ e.clearance_height) := by omega
  have hno2 : ¬ (z1 ≤ e.base_height) := by omega
  rw [← hbase] at h1
  simp only [scanLoop]
  rw [hs, hg, if_neg (by simp), if_neg (by simp), if_neg hno1, if_neg hno2, hdata]
  simp [hq, h1]

/-- C10 witness: a concrete odd-base door-across-track rejection. -/
theorem door_track_odd_base_rejected_witness :
    WallCheckObstructionWithTrack ctxDoor wRide.rides baseReq doorEntry 1 0 0 0 0 0 =
      (false, true) :=
  (door_track_odd_base_rejected ctxDoor wRide.rides baseReq doorEntry 1 3 0 0 0 0 0
    { rideType := 0 } rfl (by decide) (by decide) rfl (by decide)).1

/-- C1 counterexample: with the valid explicit height 12 (not a multiple of
the 8-unit element step) `Query` returns `Ok` having computed target height
12, and `Execute` returns `Ok` but installs the wall element at base z 8, not
at the Query-computed height. -/
theorem query_height_truncation_cex :
    (Query baseCtx baseWorld reqZ12).1.status = Status.Ok ∧
    resolveHeightSlope baseCtx baseWorld reqZ12 = some (12, 0) ∧
    (Execute baseCtx baseWorld reqZ12).1.status = Status.Ok ∧
    (Execute baseCtx baseWorld reqZ12).1.resHeight = some 8 ∧
    (8 : Int) ≠ 12 :=
  ⟨rfl, rfl, rfl, rfl, by decide⟩

/-- C2 (code bug): with one free banner slot and no free tile-element slot, a
sign-carrying wall's `Execute` allocates the banner, then the element
insertion fails and `Execute` returns `NoFreeElements` with the banner still
registered — the registry slot is leaked, contrary to the spec and to the
source's own comment ("Banner must be deleted after this point in an early
return", line 341). -/
theorem execute_banner_leak_on_insert_failure :
    wNoElems.freeBannerSlots = 1 ∧
    wNoElems.banners = [] ∧
    signEntry.scrolling_mode ≠ SCROLLING_MODE_NONE ∧
    (Execute ctxSign wNoElems baseReq).1.status = Status.NoFreeElements ∧
    (Execute ctxSign wNoElems baseReq).2.freeBannerSlots = 0 ∧
    (Execute ctxSign wNoElems baseReq).2.banners.length = 1 :=
  ⟨rfl, rfl, by decide, rfl, rfl, rfl⟩

/-- C4 counterexample: on an upward edge with a slope-forbidding wall entry,
`Query` rejects with `Disallowed` but `Execute` on the same input does not
repeat the rejection and returns `Ok`. -/
theorem execute_skips_slope_rejection_cex :
    resolveHeightSlope ctxSlope wSlope baseReq = some (8, EDGE_SLOPE_UPWARDS) ∧
    ctxSlope.wallEntries baseReq.wallType = some slopedForbidEntry ∧
    slopedForbidEntry.flags &&& WALL_SCENERY_CANT_BUILD_ON_SLOPE ≠ 0 ∧
    EDGE_SLOPE_UPWARDS &&& (EDGE_SLOPE_UPWARDS ||| EDGE_SLOPE_DOWNWARDS) ≠ 0 ∧
    (Query ctxSlope wSlope baseReq).1.status = Status.Disallowed ∧
    (Execute ctxSlope wSlope baseReq).1.status = Status.Ok :=
  ⟨rfl, rfl, by decide, by decide, rfl, rfl⟩


/-- The world with its free banner slot count replaced. -/
def World.withBannerSlots (w : World) (n : Nat) : World :=
  { w with freeBannerSlots := n }

/-- A successful `CreateBanner` leaves tiles, free elements and rides
untouched. -/
theorem CreateBanner_parts (w : World) (bid : Nat) (w1 : World)
    (h : CreateBanner w = some (bid, w1)) :
    w1.tiles = w.tiles ∧ w1.freeElements = w.freeElements ∧ w1.rides = w.rides := by
  unfold CreateBanner at h
  split at h
  · exact absurd h (by simp)
  · simp only [Option.some.injEq, Prod.mk.injEq] at h
    obtain ⟨-, h2⟩ := h
    subst h2
    exact ⟨rfl, rfl, rfl⟩

/-- `bannerStep` fails exactly when the wall carries a sign and the banner
registry is exhausted. -/
theorem bannerStep_eq_none_iff (ctx : Ctx) (w : World) (req : PlacementRequest)
    (we : WallSceneryEntry) (th : Int) :
    bannerStep ctx w req we th = none ↔
      (we.scrolling_mode ≠ SCROLLING_MODE_NONE ∧ w.freeBannerSlots = 0) := by
  unfold bannerStep
  split
  · next hscroll =>
    rcases hcb : CreateBanner w with _ | ⟨bid, w1⟩
    · simp only [hcb]
      unfold CreateBanner at hcb
      constructor
      · intro _
        refine ⟨hscroll, ?_⟩
        by_contra hne
        rw [if_neg hne] at hcb
        exact Option.noConfusion hcb
      · intro _; trivial
    · simp only [hcb]
      unfold CreateBanner at hcb
      constructor
      · intro hcon; exact Option.noConfusion hcon
      · rintro ⟨-, h0⟩
        rw [if_pos h0] at hcb
        exact Option.noConfusion hcb
  · next hscroll =>
    constructor
    · intro hcon; exact Option.noConfusion hcon
    · rintro ⟨h1, -⟩; exact absurd h1 hscroll

/-- A successful `bannerStep` leaves tiles, free elements and rides
untouched. -/
theorem bannerStep_some_parts (ctx : Ctx) (w : World) (req : PlacementRequest)
    (we : WallSceneryEntry) (th : Int) (bid : Option Nat) (w2 : World)
    (h : bannerStep ctx w req we th = some (bid, w2)) :
    w2.tiles = w.tiles ∧ w2.freeElements = w.freeElements ∧ w2.rides = w.rides := by
  unfold bannerStep at h
  split at h
  · rcases hcb : CreateBanner w with _ | ⟨bid1, w1⟩
    · simp only [hcb] at h
      exact Option.noConfusion h
    · simp only [hcb, Option.some.injEq, Prod.mk.injEq] at h
      obtain ⟨-, h2⟩ := h
      obtain ⟨t1, t2, t3⟩ := CreateBanner_parts w bid1 w1 hcb
      subst h2
      exact ⟨t1, t2, t3⟩
  · simp only [Option.some.injEq, Prod.mk.injEq] at h
    obtain ⟨-, h2⟩ := h
    subst h2
    exact ⟨rfl, rfl, rfl⟩

/-- The conditional obstruction check never answers `Disallowed`. -/
theorem obstructionStep_ne_Disallowed (ctx : Ctx) (w : World)
    (req : PlacementRequest) (we : WallSceneryEntry) (th : Int) (es : Nat) :
    (obstructionStep ctx w req we th es).1 ≠ Status.Disallowed := by
  unfold obstructionStep
  split
  · exact WallCheckObstruction_ne_Disallowed ctx w req we (Int.tdiv th 8)
      (clearanceCalc th es we)
  · simp

/-- `Execute` never returns `Disallowed`: no `Execute` branch produces that
status. -/
theorem Execute_ne_Disallowed (ctx : Ctx) (w : World) (req : PlacementRequest) :
    (Execute ctx w req).1.status ≠ Status.Disallowed := by
  unfold Execute
  repeat' split
  all_goals simp only [mkRes]
  all_goals (first
    | exact obstructionStep_ne_Disallowed _ _ _ _ _ _
    | decide)

/-- The ownership block never early-returns with an `Ok` status. -/
theorem ownershipFail_ne_some_ok (ctx : Ctx) (w : World) (req : PlacementRequest) :
    ownershipFail ctx w req ≠ some Status.Ok := by
  unfold ownershipFail
  repeat' split
  all_goals simp

set_option maxHeartbeats 2000000 in
/-- Inverting a successful `Query`: every validation step passed. -/
theorem query_ok_inv (ctx : Ctx) (w : World) (req : PlacementRequest)
    (hQ : (Query ctx w req).1.status = Status.Ok) :
    ∃ (th : Int) (es : Nat) (s : TileElement) (we : WallSceneryEntry),
      ctx.locationValid (req.x, req.y) = true ∧
      ownershipFail ctx w req = none ∧
      ¬ req.edge > 3 ∧
      resolveHeightSlope ctx w req = some (th, es) ∧
      mapGetSurfaceElementAt w (req.x, req.y) = some s ∧
      ¬ (s.GetWaterHeight > 0 ∧ th < s.GetWaterHeight ∧
          ¬ ctx.cheatsDisableClearanceChecks) ∧
      ¬ (th < s.GetBaseZ ∧ ¬ ctx.cheatsDisableClearanceChecks) ∧
      ¬ (es &&& (EDGE_SLOPE_UPWARDS ||| EDGE_SLOPE_DOWNWARDS) = 0 ∧
          flatWallGroundReject s.GetSlope s.base_height req.edge th) ∧
      ctx.wallEntries req.wallType = some we ∧
      ¬ (we.scrolling_mode ≠ SCROLLING_MODE_NONE ∧ HasReachedBannerLimit w) ∧
      ¬ (es &&& (EDGE_SLOPE_UPWARDS ||| EDGE_SLOPE_DOWNWARDS) ≠ 0 ∧
          we.flags &&& WALL_SCENERY_CANT_BUILD_ON_SLOPE ≠ 0) ∧
      (obstructionStep ctx w req we th es).1 = Status.Ok ∧
      0 < w.freeElements := by
  unfold Query at hQ
  split at hQ
  · simp [mkRes] at hQ
  next hloc =>
  split at hQ
  · next s heq =>
    simp only [mkRes] at hQ
    subst hQ
    exact absurd heq (ownershipFail_ne_some_ok ctx w req)
  next hown =>
  split at hQ
  · simp [mkRes] at hQ
  next hedge =>
  split at hQ
  · simp [mkRes] at hQ
  next th es hres =>
  split at hQ
  · simp [mkRes] at hQ
  next s hsurf =>
  split at hQ
  · simp [mkRes] at hQ
  next hwater =>
  split at hQ
  · simp [mkRes] at hQ
  next hground =>
  split at hQ
  · simp [mkRes] at hQ
  next hflat =>
  split at hQ
  · simp [mkRes] at hQ
  next we hwe =>
  split at hQ
  · simp [mkRes] at hQ
  next hban =>
  split at hQ
  · simp [mkRes] at hQ
  next hslope =>
  split at hQ
  · next hobst =>
    simp only [mkRes] at hQ
    exact absurd hQ hobst
  next hobst =>
  split at hQ
  · simp [mkRes] at hQ
  next hcap =>
  refine ⟨th, es, s, we, not_not.mp hloc, hown, hedge, hres, hsurf, hwater,
    hground, hflat, hwe, hban, hslope, not_not.mp hobst, ?_⟩
  have := not_not.mp hcap
  simpa [MapCheckCapacityAndReorganise] using this


/-- Changing the banner slot count does not affect the ownership block. -/
theorem ownershipFail_slots (ctx : Ctx) (w : World) (req : PlacementRequest) (n : Nat) :
    ownershipFail ctx (w.withBannerSlots n) req = ownershipFail ctx w req := rfl

/-- Changing the banner slot count does not affect height resolution. -/
theorem resolveHeightSlope_slots (ctx : Ctx) (w : World) (req : PlacementRequest)
    (n : Nat) :
    resolveHeightSlope ctx (w.withBannerSlots n) req = resolveHeightSlope ctx w req := rfl

/-- Changing the banner slot count does not affect the surface lookup. -/
theorem mapGetSurfaceElementAt_slots (w : World) (p : Int × Int) (n : Nat) :
    mapGetSurfaceElementAt (w.withBannerSlots n) p = mapGetSurfaceElementAt w p := rfl

/-- Changing the banner slot count does not affect the obstruction check. -/
theorem obstructionStep_slots (ctx : Ctx) (w : World) (req : PlacementRequest)
    (we : WallSceneryEntry) (th : Int) (es : Nat) (n : Nat) :
    obstructionStep ctx (w.withBannerSlots n) req we th es =
      obstructionStep ctx w req we th es := rfl

set_option maxHeartbeats 1000000 in
/-- C1 (amended): if `Query` returns `Ok` then an immediately following
`Execute` with identical inputs on the unchanged world also returns `Ok`, and
the installed wall element's base z is the Query-computed target height
rounded down to a multiple of the 8-unit element step — equal to the
Query-computed height whenever that height is 8-aligned, in particular
whenever the height was resolved automatically from the surface. -/
theorem query_ok_execute_ok (ctx : Ctx) (w : World) (req : PlacementRequest)
    (hQ : (Query ctx w req).1.status = Status.Ok) :
    (Execute ctx w req).1.status = Status.Ok ∧
    ∃ (th : Int) (es : Nat), resolveHeightSlope ctx w req = some (th, es) ∧
      (Execute ctx w req).1.resHeight = some (Int.tdiv th 8 * 8) ∧
      (8 ∣ th → (Execute ctx w req).1.resHeight = some th) := by
  obtain ⟨th, es, s, we, hloc, hown, hedge, hres, hsurf, hwater, hground, hflat,
    hwe, hban, hslope, hobst, hcap⟩ := query_ok_inv ctx w req hQ
  simp only [Execute, hres, hwe]
  rw [if_neg (not_ne_iff.mpr hobst)]
  have hbsne : bannerStep ctx w req we th ≠ none := by
    rw [Ne, bannerStep_eq_none_iff]
    rintro ⟨h1, h2⟩
    exact hban ⟨h1, by simp [HasReachedBannerLimit, h2]⟩
  obtain ⟨⟨bid, w2⟩, hbs⟩ := Option.ne_none_iff_exists'.mp hbsne
  simp only [hbs]
  obtain ⟨-, hf2, -⟩ := bannerStep_some_parts ctx w req we th bid w2 hbs
  have hfe : ¬ (w2.freeElements = 0) := by omega
  unfold TileElementInsert
  rw [if_neg hfe]
  refine ⟨rfl, th, es, rfl, rfl, ?_⟩
  rintro ⟨k, rfl⟩
  show some (Int.tdiv (8 * k) 8 * 8) = some (8 * k)
  rw [Int.mul_tdiv_cancel_left _ (by norm_num), Int.mul_comm]

/-- C1 witness: the baseline flat placement; Query succeeds and Execute
installs at the resolved height. -/
theorem query_ok_execute_ok_witness :
    (Execute baseCtx baseWorld baseReq).1.status = Status.Ok ∧
    ∃ (th : Int) (es : Nat),
      resolveHeightSlope baseCtx baseWorld baseReq = some (th, es) ∧
      (Execute baseCtx baseWorld baseReq).1.resHeight = some (Int.tdiv th 8 * 8) ∧
      (8 ∣ th → (Execute baseCtx baseWorld baseReq).1.resHeight = some th) :=
  query_ok_execute_ok baseCtx baseWorld baseReq rfl

set_option maxHeartbeats 1000000 in
/-- C4 (amended): `Execute` repeats the clearance-height computation of
Query's step (9) — target height in levels, plus 2 when the resolved edge
slope is upward or downward, plus the wall's own height — but it does not
repeat the rejection: `Execute` never returns `Disallowed`; the
slope-forbidden `Disallowed` rejection happens only in `Query`. -/
theorem execute_clearance_without_slope_reject (ctx : Ctx) (w : World)
    (req : PlacementRequest) (th : Int) (es : Nat) (we : WallSceneryEntry)
    (hres : resolveHeightSlope ctx w req = some (th, es))
    (hwe : ctx.wallEntries req.wallType = some we)
    (hok : (Execute ctx w req).1.status = Status.Ok)
    (hth : 0 ≤ th) (hbound : Int.tdiv th 8 + 2 + we.height < 256)
    (hh : 0 ≤ we.height) :
    (∀ (ctx2 : Ctx) (w2 : World) (req2 : PlacementRequest),
      (Execute ctx2 w2 req2).1.status ≠ Status.Disallowed) ∧
    ∃ e : TileElement,
      (Execute ctx w req).2.tiles (req.x, req.y) =
        w.tiles (req.x, req.y) ++ [e] ∧
      e.clearance_height = Int.tdiv th 8 +
        (if es &&& (EDGE_SLOPE_UPWARDS ||| EDGE_SLOPE_DOWNWARDS) ≠ 0 then 2 else 0) +
        we.height := by
  refine ⟨fun ctx2 w2 req2 => Execute_ne_Disallowed ctx2 w2 req2, ?_⟩
  simp only [Execute, hres, hwe] at hok ⊢
  split at hok
  · next hobst =>
    simp only [mkRes] at hok
    exact absurd hok hobst
  next hobst =>
  rcases hbs : bannerStep ctx w req we th with _ | ⟨bid, w2⟩
  · simp only [hbs, mkRes] at hok
    exact absurd hok (by decide)
  rw [if_neg hobst]
  simp only [hbs] at hok ⊢
  rcases hins : TileElementInsert w2 (req.x, req.y) th 0 (clearanceCalc th es we)
      ctx.flagGhost
      (.wall (installedWallData req es we
        (obstructionStep ctx w req we th es).2 bid)) with _ | ⟨welem, w3⟩
  · simp only [hins, mkRes] at hok
    exact absurd hok (by decide)
  simp only [hins]
  obtain ⟨htiles, -, -⟩ := bannerStep_some_parts ctx w req we th bid w2 hbs
  unfold TileElementInsert at hins
  split at hins
  · exact absurd hins (by simp)
  next hfe =>
  simp only [Option.some.injEq, Prod.mk.injEq] at hins
  obtain ⟨-, hw3⟩ := hins
  subst hw3
  refine ⟨{ base_height := Int.tdiv th 8,
            clearance_height := clearanceCalc th es we,
            isGhost := ctx.flagGhost, occupiedQuadrants := 0,
            data := .wall (installedWallData req es we
              (obstructionStep ctx w req we th es).2 bid) }, ?_, ?_⟩
  · show (if ((req.x, req.y) : Int × Int) = (req.x, req.y)
        then w2.tiles (req.x, req.y) ++ [_] else w2.tiles (req.x, req.y)) = _
    rw [if_pos rfl, htiles]
  · show clearanceCalc th es we = _
    unfold clearanceCalc
    have ht8 : 0 ≤ Int.tdiv th 8 := Int.tdiv_nonneg hth (by norm_num)
    by_cases hc : es &&& (EDGE_SLOPE_UPWARDS ||| EDGE_SLOPE_DOWNWARDS) ≠ 0
    · rw [if_pos hc, if_pos hc, Int.emod_eq_of_lt ht8 (by omega),
        Int.emod_eq_of_lt (by omega) (by omega),
        Int.emod_eq_of_lt (by omega) (by omega)]
    · rw [if_neg hc, if_neg hc, Int.emod_eq_of_lt ht8 (by omega),
        Int.emod_eq_of_lt (by omega) (by omega)]
      omega

/-- C4 witness: the sloped placement with a slope-forbidding entry; Execute
succeeds and installs with the step-(9) clearance. -/
theorem execute_clearance_without_slope_reject_witness :
    (∀ (ctx2 : Ctx) (w2 : World) (req2 : PlacementRequest),
      (Execute ctx2 w2 req2).1.status ≠ Status.Disallowed) ∧
    ∃ e : TileElement,
      (Execute ctxSlope wSlope baseReq).2.tiles (baseReq.x, baseReq.y) =
        wSlope.tiles (baseReq.x, baseReq.y) ++ [e] ∧
      e.clearance_height = Int.tdiv 8 8 +
        (if (64 : Nat) &&& (EDGE_SLOPE_UPWARDS ||| EDGE_SLOPE_DOWNWARDS) ≠ 0
         then 2 else 0) + slopedForbidEntry.height :=
  execute_clearance_without_slope_reject ctxSlope wSlope baseReq 8 64
    slopedForbidEntry rfl rfl rfl (by decide) (by decide) (by decide)

set_option maxHeartbeats 1000000 in
/-- C9: for a sign-requiring wall placement that otherwise validates (`Query`
succeeds when a banner slot is free), exhausting the banner registry makes
both `Query` and `Execute` fail with `InvalidParameters` and leave the world
— in particular the banner registry — unchanged, so no banner is
allocated. -/
theorem banner_exhaustion_invalid_parameters (ctx : Ctx) (w : World)
    (req : PlacementRequest) (n : Nat) (we : WallSceneryEntry)
    (hQ : (Query ctx (w.withBannerSlots (n + 1)) req).1.status = Status.Ok)
    (hwe : ctx.wallEntries req.wallType = some we)
    (hsign : we.scrolling_mode ≠ SCROLLING_MODE_NONE) :
    (Query ctx (w.withBannerSlots 0) req).1.status = Status.InvalidParameters ∧
    (Query ctx (w.withBannerSlots 0) req).2 = w.withBannerSlots 0 ∧
    (Execute ctx (w.withBannerSlots 0) req).1.status = Status.InvalidParameters ∧
    (Execute ctx (w.withBannerSlots 0) req).2 = w.withBannerSlots 0 := by
  obtain ⟨th, es, s, we2, hloc, hown, hedge, hres, hsurf, hwater, hground, hflat,
    hwe2, hban, hslope, hobst, hcap⟩ :=
      query_ok_inv ctx (w.withBannerSlots (n + 1)) req hQ
  rw [hwe] at hwe2
  obtain rfl : we = we2 := Option.some.inj hwe2
  have hown0 : ownershipFail ctx (w.withBannerSlots 0) req = none :=
    (ownershipFail_slots ctx w req 0).trans
      ((ownershipFail_slots ctx w req (n + 1)).symm.trans hown)
  have hres0 : resolveHeightSlope ctx (w.withBannerSlots 0) req = some (th, es) :=
    (resolveHeightSlope_slots ctx w req 0).trans
      ((resolveHeightSlope_slots ctx w req (n + 1)).symm.trans hres)
  have hsurf0 : mapGetSurfaceElementAt (w.withBannerSlots 0) (req.x, req.y) = some s :=
    (mapGetSurfaceElementAt_slots w (req.x, req.y) 0).trans
      ((mapGetSurfaceElementAt_slots w (req.x, req.y) (n + 1)).symm.trans hsurf)
  have hobst0 : (obstructionStep ctx (w.withBannerSlots 0) req we th es).1 =
      Status.Ok := by
    rw [obstructionStep_slots]
    rw [obstructionStep_slots] at hobst
    exact hobst
  have hlimit0 : HasReachedBannerLimit (w.withBannerSlots 0) = true := rfl
  have hQ0 : (Query ctx (w.withBannerSlots 0) req).1.status =
      Status.InvalidParameters := by
    unfold Query
    rw [if_neg (not_not_intro hloc)]
    simp only [hown0]
    rw [if_neg hedge]
    simp only [hres0, hsurf0]
    rw [if_neg hwater, if_neg hground, if_neg hflat]
    simp only [hwe]
    rw [if_pos ⟨hsign, hlimit0⟩]
    rfl
  have hE0 : Execute ctx (w.withBannerSlots 0) req =
      (mkRes .InvalidParameters, w.withBannerSlots 0) := by
    unfold Execute
    simp only [hres0, hwe]
    rw [if_neg (not_ne_iff.mpr hobst0)]
    have hbs0 : bannerStep ctx (w.withBannerSlots 0) req we th = none :=
      (bannerStep_eq_none_iff ctx (w.withBannerSlots 0) req we th).mpr ⟨hsign, rfl⟩
    simp only [hbs0]
  exact ⟨hQ0, Query_world_eq ctx (w.withBannerSlots 0) req,
    by rw [hE0]; rfl, by rw [hE0]⟩

/-- C9 witness: the baseline sign-wall placement with zero banner slots. -/
theorem banner_exhaustion_invalid_parameters_witness :
    (Query ctxSign (baseWorld.withBannerSlots 0) baseReq).1.status =
      Status.InvalidParameters ∧
    (Query ctxSign (baseWorld.withBannerSlots 0) baseReq).2 =
      baseWorld.withBannerSlots 0 ∧
    (Execute ctxSign (baseWorld.withBannerSlots 0) baseReq).1.status =
      Status.InvalidParameters ∧
    (Execute ctxSign (baseWorld.withBannerSlots 0) baseReq).2 =
      baseWorld.withBannerSlots 0 :=
  banner_exhaustion_invalid_parameters ctxSign baseWorld baseReq 0 signEntry
    rfl rfl (by decide)

end WallPlace
